import Mathlib

/-!
Verification of the DEM (digital elevation model) acquisition pipeline of the
agrosuccess-data repository, as implemented in the notebook
`dem-derived/download_site_elevation_data.ipynb`.

Modelling conventions:
* Python floats are idealised as real numbers `ℝ`.
* File-system paths and file names are lists of characters; `osPathJoin`
  models the two-argument posix `os.path.join` and `splitSlash` models
  Python's `str.split('/')`.
* The pointwise pyproj coordinate transforms `from_wgs84` and `to_wgs84`
  are abstract function parameters `ℝ × ℝ → Int → ℝ × ℝ` (coordinate pair
  and EPSG code to coordinate pair): their numeric behaviour lives in the
  external pyproj library, not in this repository.
* Effectful steps (`elevation.clip`, `os.rename`, `elevation.clean`,
  `gdalwarp` via `subprocess.check_call`, `os.remove`, the final `print`)
  are recorded as an ordered trace of `Action`s; a function returns the
  trace of the actions it performed together with `none` on success or
  `some e` for the Python exception `e` it raised.  Success of the two
  external collaborators (the tile download and the warp process) is an
  explicit boolean parameter, since their outcome is decided outside the
  repository.
* Python exceptions are the constructors of `Err`: `dimensionError` models
  the `ValueError`s raised by the explicit length checks, `retrievalError`
  a failure of `elevation.clip`, and `externalProcessError` the
  `CalledProcessError` raised by `subprocess.check_call`.
-/

namespace ASData

/-- Exceptions of the pipeline: the `ValueError` raised by the explicit
dimension checks, a failure of the external tile retrieval, and a non-zero
exit of the external warp process. -/
inductive Err where
  | dimensionError
  | retrievalError
  | externalProcessError
  deriving DecidableEq, Repr

/-- Observable effects of the pipeline, in the order they are performed:
`clip bounds output` is `elevation.clip(bounds=..., output=...)`,
`rename src dst` is `os.rename`, `clean` is `elevation.clean()`,
`gdalwarp in_fname out_fname t_epsg extent` is the `subprocess.check_call`
invocation of gdalwarp (source system fixed to EPSG:4326, target system
`t_epsg`, target extent `-te extent`), `remove` is `os.remove` and
`printDone` is the final progress `print`. -/
inductive Action where
  | clip (bounds : List ℝ) (output : List Char)
  | rename (src dst : List Char)
  | clean
  | gdalwarp (in_fname out_fname : List Char) (t_epsg : Int) (extent : List ℝ)
  | remove (fname : List Char)
  | printDone (fname : List Char)

/-- True exactly on `os.remove` actions; used to state that a trace performs
no file deletion. -/
def Action.isRemove : Action → Bool
  | .remove _ => true
  | _ => false

/-- The notebook's `experimental_zone_radius(area)`, i.e.
`np.sqrt(area / np.pi)`.  For a negative argument `np.sqrt` returns NaN
(with a warning, not an exception), which is modelled as `none`; any
non-negative argument produces the real square root. -/
noncomputable def experimental_zone_radius (area : ℝ) : Option ℝ :=
  if area < 0 then none else some (Real.sqrt (area / Real.pi))

/-- The notebook's `study_site_bbox(p_coords, a, beta=1.0)`: raises
`ValueError` unless the point has exactly 2 coordinates, then returns
`[minx, miny, maxx, maxy]` built from the half-width
`delta = a * (1 + beta)`.  The Python default `beta=1.0` is passed
explicitly by every caller modelled here. -/
def study_site_bbox (p_coords : List ℝ) (a beta : ℝ) : Except Err (List ℝ) :=
  if p_coords.length ≠ 2 then .error .dimensionError
  else
    let point_x := p_coords.getD 0 0
    let point_y := p_coords.getD 1 0
    let delta := a * (1 + beta)
    .ok [point_x - delta, point_y - delta, point_x + delta, point_y + delta]

/-- The notebook's `bbox_to_wgs84(bbox_coords, src_epsg_no)`, parametrised
by the pointwise transform `to_wgs84` (pyproj): raises `ValueError` unless
the box has exactly 4 coordinates, then transforms the two diagonal
vertices `(minx, miny)` and `(maxx, maxy)` and reassembles a box from their
images. -/
def bbox_to_wgs84 (to_wgs84 : ℝ × ℝ → Int → ℝ × ℝ) (bbox_coords : List ℝ)
    (src_epsg_no : Int) : Except Err (List ℝ) :=
  if bbox_coords.length ≠ 4 then .error .dimensionError
  else
    let min_vertex := (bbox_coords.getD 0 0, bbox_coords.getD 1 0)
    let max_vertex := (bbox_coords.getD 2 0, bbox_coords.getD 3 0)
    let min_vertex_wgs84 := to_wgs84 min_vertex src_epsg_no
    let max_vertex_wgs84 := to_wgs84 max_vertex src_epsg_no
    .ok [min_vertex_wgs84.1, min_vertex_wgs84.2, max_vertex_wgs84.1, max_vertex_wgs84.2]

/-- Python's `str.split('/')` on a list of characters. -/
def splitSlash : List Char → List (List Char)
  | [] => [[]]
  | c :: cs =>
    if c = '/' then [] :: splitSlash cs
    else
      match splitSlash cs with
      | [] => [[c]]
      | h :: t => (c :: h) :: t

/-- Two-argument posix `os.path.join(a, b)`: `b` if `b` is absolute,
otherwise `a ++ b` when `a` is empty or ends in a slash, otherwise
`a ++ sep ++ b`. -/
def osPathJoin (a b : List Char) : List Char :=
  if b.headD 'x' = '/' then b
  else if a = [] ∨ a.getLastD 'x' = '/' then a ++ b
  else a ++ '/' :: b

/-- The notebook's `get_wgs84_elev_data(fname, native_crs_epsg_no, p_coords,
a, beta)` with the pyproj transforms abstract, the working directory `cwd`
(value of `os.getcwd()`) explicit, and the success of `elevation.clip`
given by `clip_ok`.  It converts the point into the native system, builds
the buffered native box, converts it back to WGS84, computes
`base_name = fname.split('/')[0]` and
`tif_name = os.getcwd() + '/' + base_name + '_tmp.tif'`, then clips into
`tif_name`, renames it to `fname` and cleans the tile cache; if the clip
raises, neither the rename nor the cache clean happens. -/
def get_wgs84_elev_data (from_wgs84 to_wgs84 : ℝ × ℝ → Int → ℝ × ℝ)
    (cwd : List Char) (clip_ok : Bool) (fname : List Char)
    (native_crs_epsg_no : Int) (p_coords : ℝ × ℝ) (a beta : ℝ) :
    List Action × Option Err :=
  let native_coords := from_wgs84 p_coords native_crs_epsg_no
  match study_site_bbox [native_coords.1, native_coords.2] a beta with
  | .error e => ([], some e)
  | .ok native_bbox =>
    match bbox_to_wgs84 to_wgs84 native_bbox native_crs_epsg_no with
    | .error e => ([], some e)
    | .ok wgs84_bbox =>
      let base_name := (splitSlash fname).headD []
      let tif_name := cwd ++ '/' :: (base_name ++ "_tmp.tif".toList)
      if clip_ok then
        ([.clip wgs84_bbox tif_name, .rename tif_name fname, .clean], none)
      else
        ([.clip wgs84_bbox tif_name], some .retrievalError)

/-- The notebook's `warp_elev_data(in_fname, out_fname, native_crs_epsg_no,
p_coords, a, beta)` with the pyproj transform abstract and the exit status
of the external gdalwarp process given by `warp_ok`.  It recomputes the
buffered native bounding box and invokes gdalwarp with it as the target
extent; no validation of the extent happens before the invocation. -/
def warp_elev_data (from_wgs84 : ℝ × ℝ → Int → ℝ × ℝ) (warp_ok : Bool)
    (in_fname out_fname : List Char) (native_crs_epsg_no : Int)
    (p_coords : ℝ × ℝ) (a beta : ℝ) : List Action × Option Err :=
  let native_coords := from_wgs84 p_coords native_crs_epsg_no
  match study_site_bbox [native_coords.1, native_coords.2] a beta with
  | .error e => ([], some e)
  | .ok native_bbox =>
    ([.gdalwarp in_fname out_fname native_crs_epsg_no native_bbox],
     if warp_ok then none else some .externalProcessError)

/-- The notebook's `get_elev_data(fname, tgt_crs_epsg_no, p_coords, a,
beta)`: it joins `fname` onto the working directory, appends `.tmp` to get
the temporary name, fetches the WGS84 raster with the inflated buffer
factor `beta * 1.5`, warps it with the original factor `beta`, and only
then removes the temporary file and prints the completion message; an
exception in an earlier step aborts the remaining steps. -/
def get_elev_data (from_wgs84 to_wgs84 : ℝ × ℝ → Int → ℝ × ℝ)
    (cwd : List Char) (clip_ok warp_ok : Bool) (fname : List Char)
    (tgt_crs_epsg_no : Int) (p_coords : ℝ × ℝ) (a beta : ℝ) :
    List Action × Option Err :=
  let fname' := osPathJoin cwd fname
  let tmp_fname := fname' ++ ".tmp".toList
  match get_wgs84_elev_data from_wgs84 to_wgs84 cwd clip_ok tmp_fname
      tgt_crs_epsg_no p_coords a (beta * 1.5) with
  | (tr, some e) => (tr, some e)
  | (tr, none) =>
    match warp_elev_data from_wgs84 warp_ok tmp_fname fname' tgt_crs_epsg_no
        p_coords a beta with
    | (tr2, some e) => (tr ++ tr2, some e)
    | (tr2, none) => (tr ++ tr2 ++ [.remove tmp_fname, .printDone fname'], none)

/-- On a 2-coordinate point the dimension check passes and `study_site_bbox`
returns the box built from the half-width `a * (1 + beta)`. -/
theorem study_site_bbox_pair (x y a beta : ℝ) :
    study_site_bbox [x, y] a beta =
      .ok [x - a * (1 + beta), y - a * (1 + beta),
           x + a * (1 + beta), y + a * (1 + beta)] := rfl

/-- Splitting a character list that starts with a slash yields the empty
list as its first chunk, exactly as Python's `'/abc'.split('/')[0] == ''`. -/
theorem splitSlash_slash_cons (l : List Char) :
    splitSlash ('/' :: l) = [] :: splitSlash l := by
  simp [splitSlash]

/-- Joining any second component onto a path that starts with a slash
produces a path that starts with a slash. -/
theorem osPathJoin_head (cwd fname : List Char) (h : cwd.headD 'x' = '/') :
    ∃ t, osPathJoin cwd fname = '/' :: t := by
  cases cwd with
  | nil => simp at h
  | cons c cs =>
    simp only [List.headD_cons] at h
    subst h
    unfold osPathJoin
    by_cases hb : fname.headD 'x' = '/'
    · rw [if_pos hb]
      cases fname with
      | nil => simp at hb
      | cons b bs =>
        simp only [List.headD_cons] at hb
        exact ⟨bs, by rw [hb]⟩
    · rw [if_neg hb]
      by_cases hc : ('/' :: cs : List Char) = [] ∨
          (('/' :: cs : List Char)).getLastD 'x' = '/'
      · rw [if_pos hc]
        exact ⟨cs ++ fname, rfl⟩
      · rw [if_neg hc]
        exact ⟨cs ++ '/' :: fname, rfl⟩

/-- For an absolute working directory, the first `'/'`-chunk of the joined
path with any suffix appended is the empty string. -/
theorem splitSlash_head_empty (cwd fname sfx : List Char)
    (h : cwd.headD 'x' = '/') :
    (splitSlash (osPathJoin cwd fname ++ sfx)).headD [] = [] := by
  obtain ⟨t, ht⟩ := osPathJoin_head cwd fname h
  rw [ht, List.cons_append, splitSlash_slash_cons, List.headD_cons]

/-- C3: for every 2-dimensional point `(x, y)`, every radius `a` and every
buffer factor `beta`, `study_site_bbox` returns exactly
`[x - delta, y - delta, x + delta, y + delta]` with
`delta = a * (1 + beta)`. -/
theorem study_site_bbox_formula (x y a beta : ℝ) :
    study_site_bbox [x, y] a beta =
      .ok [x - a * (1 + beta), y - a * (1 + beta),
           x + a * (1 + beta), y + a * (1 + beta)] := rfl

/-- C7: a point whose coordinate list does not have length 2 makes
`study_site_bbox` fail with the dimension error; no box is computed, so
extra coordinates are never silently truncated. -/
theorem study_site_bbox_dim_check (p : List ℝ) (a beta : ℝ)
    (h : p.length ≠ 2) :
    study_site_bbox p a beta = .error .dimensionError := by
  unfold study_site_bbox
  rw [if_pos h]

/-- Witness for C7: a 3-coordinate point is rejected. -/
theorem study_site_bbox_dim_check_witness :
    (([1, 2, 3] : List ℝ).length ≠ 2) ∧
      study_site_bbox [1, 2, 3] 5 1 = .error .dimensionError :=
  ⟨by decide, study_site_bbox_dim_check [1, 2, 3] 5 1 (by decide)⟩

/-- C8: `bbox_to_wgs84` transforms only the two diagonal corners of the
box: the result is exactly the images of `(minx, miny)` and `(maxx, maxy)`
under the pointwise transform, reassembled into a box, rather than a
proper polygon reprojection. -/
theorem bbox_to_wgs84_corners (to_wgs84 : ℝ × ℝ → Int → ℝ × ℝ)
    (b0 b1 b2 b3 : ℝ) (src : Int) :
    bbox_to_wgs84 to_wgs84 [b0, b1, b2, b3] src =
      .ok [(to_wgs84 (b0, b1) src).1, (to_wgs84 (b0, b1) src).2,
           (to_wgs84 (b2, b3) src).1, (to_wgs84 (b2, b3) src).2] := rfl

/-- C1: in a successful run of `get_elev_data`, the acquisition step clips
with the bounding box built from the inflated buffer factor `beta * 1.5`
(half-width `a * (1 + beta * 1.5)`) while the final gdalwarp crop uses the
extent built from the original factor `beta` (half-width
`a * (1 + beta)`); the inflated factor never reaches the final crop. -/
theorem get_elev_data_buffer_factors (from_wgs84 to_wgs84 : ℝ × ℝ → Int → ℝ × ℝ)
    (cwd fname : List Char) (tgt : Int) (p : ℝ × ℝ) (a beta : ℝ) :
    get_elev_data from_wgs84 to_wgs84 cwd true true fname tgt p a beta =
      (let x := (from_wgs84 p tgt).1
       let y := (from_wgs84 p tgt).2
       let d15 := a * (1 + beta * 1.5)
       let d := a * (1 + beta)
       let fj := osPathJoin cwd fname
       let tmp := fj ++ ".tmp".toList
       let tif := cwd ++ '/' :: ((splitSlash tmp).headD [] ++ "_tmp.tif".toList)
       ([.clip [(to_wgs84 (x - d15, y - d15) tgt).1,
                (to_wgs84 (x - d15, y - d15) tgt).2,
                (to_wgs84 (x + d15, y + d15) tgt).1,
                (to_wgs84 (x + d15, y + d15) tgt).2] tif,
         .rename tif tmp, .clean,
         .gdalwarp tmp fj tgt [x - d, y - d, x + d, y + d],
         .remove tmp, .printDone fj], none)) := rfl

/-- The radius for a 30 km² experimental zone is below 3090.2. -/
theorem radius_30km2_lt :
    Real.sqrt ((30000000 : ℝ) / Real.pi) < 3090.2 := by
  rw [Real.sqrt_lt' (by norm_num : (0 : ℝ) < 3090.2), div_lt_iff₀ Real.pi_pos]
  nlinarith [Real.pi_gt_d6]

/-- The radius for a 30 km² experimental zone is above 3090.19. -/
theorem radius_30km2_gt :
    (3090.19 : ℝ) < Real.sqrt ((30000000 : ℝ) / Real.pi) := by
  rw [Real.lt_sqrt (by norm_num : (0 : ℝ) ≤ 3090.19), lt_div_iff₀ Real.pi_pos]
  nlinarith [Real.pi_lt_d6]

/-- C4 counterexample: for area 30,000,000 the radius actually returned,
`sqrt(30000000 / π)`, differs from the claimed 3093.96 by more than 3
units, so it is not approximately 3093.96 at the stated precision. -/
theorem experimental_zone_radius_30km2_not_3093 :
    experimental_zone_radius 30000000 =
        some (Real.sqrt ((30000000 : ℝ) / Real.pi)) ∧
      3 < |Real.sqrt ((30000000 : ℝ) / Real.pi) - 3093.96| := by
  constructor
  · unfold experimental_zone_radius
    rw [if_neg (by norm_num : ¬((30000000 : ℝ) < 0))]
  · have hub := radius_30km2_lt
    have h1 : Real.sqrt ((30000000 : ℝ) / Real.pi) - 3093.96 < 0 := by linarith
    rw [abs_of_neg h1]
    linarith

/-- C4 amended: for area 30,000,000 the radius is approximately 3090.19
(within 0.01), and with buffer factor 1.0 the resulting bounding box has
half-width `r * (1 + 1)`, approximately 6180.39 (within 0.02). -/
theorem experimental_zone_radius_30km2_approx :
    ∃ r, experimental_zone_radius 30000000 = some r ∧
      |r - 3090.19| < 0.01 ∧
      study_site_bbox [0, 0] r 1 =
        .ok [0 - r * (1 + 1), 0 - r * (1 + 1), 0 + r * (1 + 1), 0 + r * (1 + 1)] ∧
      |r * (1 + 1) - 6180.39| < 0.02 := by
  refine ⟨Real.sqrt ((30000000 : ℝ) / Real.pi), ?_, ?_,
    study_site_bbox_pair 0 0 _ 1, ?_⟩
  · unfold experimental_zone_radius
    rw [if_neg (by norm_num : ¬((30000000 : ℝ) < 0))]
  · have hub := radius_30km2_lt
    have hlb := radius_30km2_gt
    rw [abs_sub_lt_iff]
    constructor <;> linarith
  · have hub := radius_30km2_lt
    have hlb := radius_30km2_gt
    rw [abs_sub_lt_iff]
    constructor <;> linarith

/-- C5 counterexample: with the point at the origin, radius 1 and buffer
factor -3, the computed target extent is `[2, 2, -2, -2]`, whose
`min_x = 2` exceeds `max_x = -2`; `warp_elev_data` nevertheless performs
the gdalwarp invocation with this extent and reports no error, so nothing
is rejected before the external process runs. -/
theorem warp_elev_data_no_extent_check :
    warp_elev_data (fun _ _ => (0, 0)) true ("in.tif".toList) ("out.tif".toList)
        2062 (0, 0) 1 (-3) =
      ([Action.gdalwarp ("in.tif".toList) ("out.tif".toList) 2062 [2, 2, -2, -2]],
        none) ∧
      (-2 : ℝ) < 2 := by
  constructor
  · norm_num [warp_elev_data, study_site_bbox]
  · norm_num

/-- C5 amended: `warp_elev_data` performs no validation of the target
extent: for every input whose point is a coordinate pair it always invokes
the external gdalwarp process with the computed extent, whatever the
ordering of its entries (the only earlier failure is the dimension check on
the point, which a pair always passes). -/
theorem warp_elev_data_always_invokes (from_wgs84 : ℝ × ℝ → Int → ℝ × ℝ)
    (warp_ok : Bool) (in_f out_f : List Char) (epsg : Int) (p : ℝ × ℝ)
    (a beta : ℝ) :
    (warp_elev_data from_wgs84 warp_ok in_f out_f epsg p a beta).1 =
      [Action.gdalwarp in_f out_f epsg
        [(from_wgs84 p epsg).1 - a * (1 + beta),
         (from_wgs84 p epsg).2 - a * (1 + beta),
         (from_wgs84 p epsg).1 + a * (1 + beta),
         (from_wgs84 p epsg).2 + a * (1 + beta)]] := rfl

/-- C6 counterexample: at area 0 the function returns the value 0 (numpy's
`sqrt(0.0)` is `0.0`); it does not fail. -/
theorem experimental_zone_radius_zero_value :
    experimental_zone_radius 0 = some 0 := by
  unfold experimental_zone_radius
  rw [if_neg (by norm_num : ¬((0 : ℝ) < 0))]
  norm_num

/-- C6 amended: `experimental_zone_radius` never raises: for negative area
it returns NaN (modelled as `none`; numpy emits a warning, not an error),
and for every positive area it returns the value `sqrt(area / π)`, a
positive number whose square is `area / π`. -/
theorem experimental_zone_radius_amended :
    (∀ area : ℝ, area < 0 → experimental_zone_radius area = none) ∧
      ∀ area : ℝ, 0 < area →
        ∃ r, experimental_zone_radius area = some r ∧ 0 < r ∧
          r ^ 2 = area / Real.pi := by
  constructor
  · intro area h
    unfold experimental_zone_radius
    rw [if_pos h]
  · intro area h
    have hd : 0 < area / Real.pi := div_pos h Real.pi_pos
    refine ⟨Real.sqrt (area / Real.pi), ?_, Real.sqrt_pos.mpr hd,
      Real.sq_sqrt hd.le⟩
    unfold experimental_zone_radius
    rw [if_neg (by linarith : ¬ area < 0)]

/-- Witness for C6 amended: evaluated at area -1 and area 4. -/
theorem experimental_zone_radius_amended_witness :
    experimental_zone_radius (-1) = none ∧
      ∃ r, experimental_zone_radius 4 = some r ∧ 0 < r ∧ r ^ 2 = 4 / Real.pi :=
  ⟨experimental_zone_radius_amended.1 (-1) (by norm_num),
   experimental_zone_radius_amended.2 4 (by norm_num)⟩

/-- C9: when the working directory is absolute (as `os.getcwd()` always
is), joining the output path onto it makes it absolute, so inside the
acquisition step the first `'/'`-chunk of the temporary file name is the
empty string, and the intermediate downloaded raster is clipped to the
single fixed path `cwd + '/_tmp.tif'` — the same for every site — and then
renamed to the per-site temporary path `joined + '.tmp'`. -/
theorem get_elev_data_fixed_tmp_path (from_wgs84 to_wgs84 : ℝ × ℝ → Int → ℝ × ℝ)
    (cwd fname : List Char) (tgt : Int) (p : ℝ × ℝ) (a beta : ℝ)
    (hcwd : cwd.headD 'x' = '/') :
    (splitSlash (osPathJoin cwd fname ++ ".tmp".toList)).headD [] = [] ∧
      ∃ bounds,
        (get_elev_data from_wgs84 to_wgs84 cwd true true fname tgt p a beta).1.take 2 =
          [Action.clip bounds (cwd ++ '/' :: "_tmp.tif".toList),
           Action.rename (cwd ++ '/' :: "_tmp.tif".toList)
             (osPathJoin cwd fname ++ ".tmp".toList)] := by
  have hs := splitSlash_head_empty cwd fname (".tmp".toList) hcwd
  refine ⟨hs, ?_⟩
  have htake :
      (get_elev_data from_wgs84 to_wgs84 cwd true true fname tgt p a beta).1.take 2 =
        (let x := (from_wgs84 p tgt).1
         let y := (from_wgs84 p tgt).2
         let d15 := a * (1 + beta * 1.5)
         let tmp := osPathJoin cwd fname ++ ".tmp".toList
         let tif := cwd ++ '/' :: ((splitSlash tmp).headD [] ++ "_tmp.tif".toList)
         [Action.clip [(to_wgs84 (x - d15, y - d15) tgt).1,
                       (to_wgs84 (x - d15, y - d15) tgt).2,
                       (to_wgs84 (x + d15, y + d15) tgt).1,
                       (to_wgs84 (x + d15, y + d15) tgt).2] tif,
          Action.rename tif tmp]) := rfl
  rw [htake]
  simp only [hs, List.nil_append]
  exact ⟨_, rfl⟩

/-- Witness for C9: a concrete absolute working directory and a relative
per-site output path. -/
theorem get_elev_data_fixed_tmp_path_witness :
    (splitSlash (osPathJoin ("/work".toList) ("sites/dem.tif".toList) ++
      ".tmp".toList)).headD [] = [] :=
  (get_elev_data_fixed_tmp_path (fun q _ => q) (fun q _ => q) ("/work".toList)
    ("sites/dem.tif".toList) 2062 (0, 0) 1 1 (by decide)).1

/-- C10: if the external warp invocation fails, `get_elev_data` raises the
process error and its trace performs no `os.remove` at all, so the
temporary geographic raster stays on disk; when the warp succeeds, the
removal of the temporary file is performed directly after the gdalwarp
invocation (positions 3 and 4 of the trace), i.e. the temporary raster is
deleted only after the reprojection step returns successfully. -/
theorem get_elev_data_tmp_cleanup (from_wgs84 to_wgs84 : ℝ × ℝ → Int → ℝ × ℝ)
    (cwd fname : List Char) (tgt : Int) (p : ℝ × ℝ) (a beta : ℝ) :
    ((get_elev_data from_wgs84 to_wgs84 cwd true false fname tgt p a beta).1.all
        (fun act => ! act.isRemove) = true) ∧
      (get_elev_data from_wgs84 to_wgs84 cwd true false fname tgt p a beta).2 =
        some Err.externalProcessError ∧
      (get_elev_data from_wgs84 to_wgs84 cwd true true fname tgt p a beta).1.drop 3 =
        [Action.gdalwarp (osPathJoin cwd fname ++ ".tmp".toList)
           (osPathJoin cwd fname) tgt
           [(from_wgs84 p tgt).1 - a * (1 + beta),
            (from_wgs84 p tgt).2 - a * (1 + beta),
            (from_wgs84 p tgt).1 + a * (1 + beta),
            (from_wgs84 p tgt).2 + a * (1 + beta)],
         Action.remove (osPathJoin cwd fname ++ ".tmp".toList),
         Action.printDone (osPathJoin cwd fname)] :=
  ⟨rfl, rfl, rfl⟩

end ASData
